/-
Verification of the sqltest test-fixture helpers.

The Go package launches ephemeral MySQL / PostgreSQL / Memcached containers
for integration tests: it builds a default container specification, applies
caller-supplied override functions, launches the container, polls for
readiness, returns a connected handle plus a cleanup function, and executes
schema / seed SQL.  The external collaborators (docker runtime, SQL drivers,
memcache client) are modelled as parameters: an environment record supplies
the outcome of each external call, and the functions below are direct
transcriptions of the Go control flow over those parameters.
-/
import Mathlib

set_option autoImplicit false

namespace Sqltest

/-! ## String helpers

Go slices strings by index (`v[:len(p)]`, `v[len(p):]`).  We model a Go
string as a Lean `String` and index it through its character list. -/

/-- Character-indexed take, modelling Go's `v[:n]`. -/
def strTake (s : String) (n : Nat) : String :=
  ⟨s.data.take n⟩

/-- Character-indexed drop, modelling Go's `v[n:]`. -/
def strDrop (s : String) (n : Nat) : String :=
  ⟨s.data.drop n⟩

/-- Character length, modelling Go's `len(v)`. -/
def strLen (s : String) : Nat :=
  s.data.length

/-- Go function getEnvValue: searches the given slice of environment variable strings for
the specified key and returns its value; if the key is not found it returns
the empty string.  Transcribed from the Go loop
`if len(v) >= len(prefix) && v[:len(prefix)] == prefix { return v[len(prefix):] }`. -/
def getEnvValue : List String → String → String
  | [], _ => ""
  | v :: rest, key =>
    let pfx := key ++ "="
    if strLen pfx ≤ strLen v ∧ strTake v (strLen pfx) = pfx then
      strDrop v (strLen pfx)
    else
      getEnvValue rest key

/-! ## Resource specifications and overrides -/

/-- The fields of `dockertest.RunOptions` that this package sets and reads. -/
structure RunOptions where
  Repository : String
  Tag : String
  Env : List String
deriving DecidableEq

/-- A `RunOption` mutates a `RunOptions` value; Go passes a pointer, which we
model as a function from the old value to the new one. -/
def RunOption : Type :=
  RunOptions → RunOptions

/-- The Go loop `for _, opt := range runOpts { opt(defaultRunOpts) }`:
apply each override, in list order, to the accumulated specification. -/
def applyRunOptions : RunOptions → List RunOption → RunOptions
  | r, [] => r
  | r, o :: rest => applyRunOptions (o r) rest

def defaultMySQLImage : String := "mysql"

def defaultMySQLTag : String := "8.0"

/-- Default run options of `NewMySQLWithOptions`. -/
def defaultMySQLRunOpts : RunOptions :=
  { Repository := defaultMySQLImage
    Tag := defaultMySQLTag
    Env := ["MYSQL_ROOT_PASSWORD=secret", "MYSQL_DATABASE=test"] }

def defaultPostgresImage : String := "postgres"

def defaultPostgresTag : String := "13"

/-- Default run options of `NewPostgresWithOptions`. -/
def defaultPostgresRunOpts : RunOptions :=
  { Repository := defaultPostgresImage
    Tag := defaultPostgresTag
    Env := ["POSTGRES_PASSWORD=secret", "POSTGRES_DB=test"] }

def defaultMemcachedImage : String := "memcached"

def defaultMemcachedTag : String := "1.6"

/-- Default run options of `NewMemcachedWithOptions` (the Go struct literal
leaves `Env` at its zero value, the empty slice). -/
def defaultMemcachedRunOpts : RunOptions :=
  { Repository := defaultMemcachedImage
    Tag := defaultMemcachedTag
    Env := [] }

/-- The specification finalized by `NewMySQLWithOptions` before launch. -/
def buildMySQLRunOpts (runOpts : List RunOption) : RunOptions :=
  applyRunOptions defaultMySQLRunOpts runOpts

/-- The specification finalized by `NewPostgresWithOptions` before launch. -/
def buildPostgresRunOpts (runOpts : List RunOption) : RunOptions :=
  applyRunOptions defaultPostgresRunOpts runOpts

/-- The specification finalized by `NewMemcachedWithOptions` before launch. -/
def buildMemcachedRunOpts (runOpts : List RunOption) : RunOptions :=
  applyRunOptions defaultMemcachedRunOpts runOpts

/-! ## Connection strings -/

/-- The MySQL DSN closure of `NewMySQLWithOptions`:
`fmt.Sprintf("root:%s@tcp(%s)/%s?parseTime=true", pass, actualPort, db)`
where `pass` and `db` are read from the finalized environment. -/
def mysqlDSN (finalOpts : RunOptions) (actualPort : String) : String :=
  "root:" ++ getEnvValue finalOpts.Env "MYSQL_ROOT_PASSWORD"
    ++ "@tcp(" ++ actualPort ++ ")/"
    ++ getEnvValue finalOpts.Env "MYSQL_DATABASE" ++ "?parseTime=true"

/-- The PostgreSQL DSN closure of `NewPostgresWithOptions`:
`fmt.Sprintf("postgres://postgres:%s@%s/%s?sslmode=disable", pass, actualPort, db)`
where `pass` and `db` are read from the finalized environment. -/
def postgresDSN (finalOpts : RunOptions) (actualPort : String) : String :=
  "postgres://postgres:" ++ getEnvValue finalOpts.Env "POSTGRES_PASSWORD"
    ++ "@" ++ actualPort ++ "/"
    ++ getEnvValue finalOpts.Env "POSTGRES_DB" ++ "?sslmode=disable"

/-! ## Container launch and readiness

`NewDockerDB` talks to the docker runtime and to the SQL driver; a
`DockerEnv` supplies the outcome of each of those external calls.  The
function returns the handle it would hand to the caller (`none` when
`t.Fatalf` aborts the test first) together with the ordered trace of
observable events (probe attempts, container purges, fatal aborts). -/

/-- The number of seconds in `context.WithTimeout(context.Background(), 30*time.Second)`
that bounds every readiness ping of the relational-database paths. -/
def readinessTimeoutSeconds : Nat := 30

/-- Observable events of a constructor run. -/
inductive Event where
  /-- One iteration of the `pool.Retry` closure, dialling the given address. -/
  | probe (n : Nat) (addr : String)
  /-- A `pool.Purge(resource)` call. -/
  | purge
  /-- A `t.Fatalf` abort with the given message. -/
  | fatal (msg : String)
deriving DecidableEq

/-- Outcomes of the external calls made by `NewDockerDB`, for a client type `C`
standing in for `*sql.DB`.  `elapsedAt n` is the wall-clock time, in seconds
since the timeout context was created, at which retry attempt `n` runs its
ping; `retryFuel + 1` is the number of attempts the external `pool.Retry`
backoff policy grants before giving up. -/
structure DockerEnv (C : Type) where
  newPoolErr : Option String
  runErr : RunOptions → Option String
  hostPort : String → String
  dial : String → Except String C
  elapsedAt : Nat → Nat
  pingErr : C → Nat → Option String
  retryFuel : Nat

/-- The `pool.Retry` closure of `NewDockerDB`, at attempt `n`:
`sql.Open` (modelled by `dial`), then `db.PingContext(ctx)` where `ctx` is the
30-second timeout context (a ping past the deadline fails with a context
error), the ping outcome itself supplied by `pingErr`. -/
def dockerProbe {C : Type} (env : DockerEnv C) (dsn : String) (n : Nat) : Except String C :=
  match env.dial dsn with
  | .error e => .error e
  | .ok c =>
    if readinessTimeoutSeconds ≤ env.elapsedAt n then
      .error "context deadline exceeded"
    else
      match env.pingErr c n with
      | some e => .error e
      | none => .ok c

/-- The external `pool.Retry` loop: run the operation at successive attempt
indices until it succeeds or the backoff budget (`fuel + 1` attempts) is
exhausted, returning the visited attempt indices and the final outcome. -/
def poolRetryTrace {C : Type} (op : Nat → Except String C) : Nat → Nat → List Nat × Except String C
  | 0, n => ([n], op n)
  | fuel + 1, n =>
    match op n with
    | .ok c => ([n], .ok c)
    | .error _ =>
      let (tr, r) := poolRetryTrace op fuel (n + 1)
      (n :: tr, r)

/-- Go function NewDockerDB: connect to docker, launch the container from the finalized
run options, resolve the mapped host port, then retry dial+ping until ready.
Returns the connected handle (`none` when `t.Fatalf` aborted) and the event
trace.  Host configuration options are forwarded opaquely to the runtime and
do not appear in the model. -/
def NewDockerDB {C : Type} (env : DockerEnv C) (runOpts : RunOptions)
    (containerPort driverName : String) (dsnFunc : String → String) :
    Option C × List Event :=
  match env.newPoolErr with
  | some e => (none, [Event.fatal ("failed to connect to docker: " ++ e)])
  | none =>
    match env.runErr runOpts with
    | some e => (none, [Event.fatal ("failed to start " ++ driverName ++ " container: " ++ e)])
    | none =>
      if env.hostPort containerPort = "" then
        (none, [Event.purge,
          Event.fatal ("no host port was assigned for the " ++ driverName ++ " container")])
      else
        match poolRetryTrace (dockerProbe env (dsnFunc (env.hostPort containerPort)))
            env.retryFuel 0 with
        | (tr, .error e) =>
          (none, tr.map (fun n => Event.probe n (dsnFunc (env.hostPort containerPort))) ++
            [Event.purge, Event.fatal ("failed to connect to " ++ driverName ++ ": " ++ e)])
        | (tr, .ok c) =>
          (some c, tr.map (fun n => Event.probe n (dsnFunc (env.hostPort containerPort))))

/-- Go function NewMySQLWithOptions: finalize the MySQL specification, read the
password and database from its environment, and launch through `NewDockerDB`
with the MySQL DSN closure. -/
def NewMySQLWithOptions {C : Type} (env : DockerEnv C) (runOpts : List RunOption) :
    Option C × List Event :=
  let finalOpts := buildMySQLRunOpts runOpts
  NewDockerDB env finalOpts "3306/tcp" "mysql" (fun actualPort => mysqlDSN finalOpts actualPort)

/-- Go function NewPostgresWithOptions: finalize the PostgreSQL specification, read the
password and database from its environment, and launch through `NewDockerDB`
with the PostgreSQL DSN closure. -/
def NewPostgresWithOptions {C : Type} (env : DockerEnv C) (runOpts : List RunOption) :
    Option C × List Event :=
  let finalOpts := buildPostgresRunOpts runOpts
  NewDockerDB env finalOpts "5432/tcp" "postgres" (fun actualPort => postgresDSN finalOpts actualPort)

/-- Outcomes of the external calls made by `NewMemcachedWithOptions`, for a
client type `M` standing in for `*memcache.Client`.  `memcache.New` never
fails, so `newClient` is total; `setErrAt` / `getErrAt` are the outcomes of
the probe's set and get of the throwaway key at attempt `n`. -/
structure MemcachedEnv (M : Type) where
  newPoolErr : Option String
  runErr : RunOptions → Option String
  hostPort : String → String
  newClient : String → M
  setErrAt : M → Nat → Option String
  getErrAt : M → Nat → Option String
  retryFuel : Nat

/-- The `pool.Retry` closure of `NewMemcachedWithOptions`, at attempt `n`:
create a client, `Set` the key `test_connection` to `test_value`, wait, then
`Get` it back; succeed only if both the set and the get succeed. -/
def memcachedProbe {M : Type} (env : MemcachedEnv M) (actualPort : String) (n : Nat) :
    Except String M :=
  let client := env.newClient actualPort
  match env.setErrAt client n with
  | some e => .error e
  | none =>
    match env.getErrAt client n with
    | some e => .error e
    | none => .ok client

/-- Go function NewMemcachedWithOptions: finalize the Memcached specification, connect
to docker, launch, resolve the mapped port for `11211/tcp`, then retry the
set+get probe until ready.  Returns the client (`none` when `t.Fatalf`
aborted) and the event trace. -/
def NewMemcachedWithOptions {M : Type} (env : MemcachedEnv M) (runOpts : List RunOption) :
    Option M × List Event :=
  match env.newPoolErr with
  | some e => (none, [Event.fatal ("failed to connect to docker: " ++ e)])
  | none =>
    match env.runErr (buildMemcachedRunOpts runOpts) with
    | some e => (none, [Event.fatal ("failed to start memcached container: " ++ e)])
    | none =>
      if env.hostPort "11211/tcp" = "" then
        (none, [Event.purge,
          Event.fatal "no host port was assigned for the memcached container"])
      else
        match poolRetryTrace (memcachedProbe env (env.hostPort "11211/tcp"))
            env.retryFuel 0 with
        | (tr, .error e) =>
          (none, tr.map (fun n => Event.probe n (env.hostPort "11211/tcp")) ++
            [Event.purge, Event.fatal ("failed to connect to memcached: " ++ e)])
        | (tr, .ok c) =>
          (some c, tr.map (fun n => Event.probe n (env.hostPort "11211/tcp")))

/-! ## Cleanup functions -/

/-- Observable events of a cleanup (release) function. -/
inductive CleanupEvent where
  /-- The `db.Close()` call. -/
  | closeClient
  /-- The `pool.Purge(resource)` call. -/
  | purgeContainer
  /-- A `t.Logf` message. -/
  | logged (msg : String)
deriving DecidableEq

/-- The cleanup closure returned by `NewDockerDB`: close the database handle,
logging any error, then purge the container, logging any error.  Nothing is
returned to the caller — errors are only logged. -/
def dbCleanup (closeErr purgeErr : Option String) (driverName : String) : List CleanupEvent :=
  [CleanupEvent.closeClient]
    ++ (match closeErr with
        | some e => [CleanupEvent.logged ("failed to close DB: " ++ e)]
        | none => [])
    ++ [CleanupEvent.purgeContainer]
    ++ (match purgeErr with
        | some e => [CleanupEvent.logged ("failed to remove " ++ driverName ++ " container: " ++ e)]
        | none => [])

/-- The cleanup closure returned by `NewMemcachedWithOptions`: purge the
container, logging any error.  The memcache client is not closed. -/
def memcachedCleanup (purgeErr : Option String) : List CleanupEvent :=
  [CleanupEvent.purgeContainer]
    ++ (match purgeErr with
        | some e => [CleanupEvent.logged ("failed to remove memcached container: " ++ e)]
        | none => [])

/-! ## PrepDatabase

`PrepDatabase` drives an already-connected `*sql.DB`.  The database engine is
abstracted as a state type `σ` with an `exec` operation (used both for
auto-committed schema DDL and for statements inside a transaction — a
transaction executes against a pending copy of the state, which only a
successful commit publishes), plus the outcomes of `Begin` and `Commit`.
Each `PrepDatabase`-level function returns the committed state, the ordered
trace of statement texts handed to the engine, and the returned Go error. -/

/-- Per-setup schema/seed bundle, transcribed from the Go struct. -/
structure InitialDBSetup where
  SchemaSQL : String
  InitialData : List String
deriving DecidableEq

/-- Abstract SQL engine over committed/pending states of type `σ`. -/
structure SQLEngine (σ : Type) where
  /-- Execute one statement against a state; `.error` models a failed `Exec`,
  which leaves the state unchanged. -/
  exec : σ → String → Except String σ
  /-- The error, if any, of `db.Begin()` on the given committed state. -/
  beginErr : σ → Option String
  /-- The error, if any, of `tx.Commit()` of the given pending state; on a
  commit error the pending state is discarded. -/
  commitErr : σ → Option String

/-- The inner loop of `PrepDatabase`: execute each seed statement against the
pending transaction state, in order, stopping at the first failure with the
wrapped error that `PrepDatabase` returns after rolling back.  Returns the
trace of statements handed to `tx.Exec` and either the final pending state or
that error. -/
def execSeedData {σ : Type} (E : SQLEngine σ) : σ → List String → List String × Except String σ
  | p, [] => ([], .ok p)
  | p, stmt :: rest =>
    match E.exec p stmt with
    | .error e => ([stmt], .error ("failed to execute initial data SQL: " ++ e))
    | .ok p2 =>
      let (tr, r) := execSeedData E p2 rest
      (stmt :: tr, r)

/-- The schema step of `PrepDatabase` for one setup: if `SchemaSQL` is
non-empty, execute it directly (auto-committed); on failure return the
wrapped schema error. -/
def schemaStep {σ : Type} (E : SQLEngine σ) (db : σ) (schemaSQL : String) :
    σ × List String × Option String :=
  if schemaSQL = "" then
    (db, [], none)
  else
    match E.exec db schemaSQL with
    | .error e => (db, [schemaSQL], some ("failed to execute schema SQL: " ++ e))
    | .ok d => (d, [schemaSQL], none)

/-- One iteration of `PrepDatabase`'s loop over its setups: the schema step,
then — if the seed list is non-empty — `Begin`, the seed statements inside
the transaction, and `Commit`; any failure rolls back (the committed state
stays at its pre-transaction value) and yields the wrapped error. -/
def prepSetup {σ : Type} (E : SQLEngine σ) (db : σ) (s : InitialDBSetup) :
    σ × List String × Option String :=
  match schemaStep E db s.SchemaSQL with
  | (db1, tr1, some e) => (db1, tr1, some e)
  | (db1, tr1, none) =>
    if s.InitialData = [] then
      (db1, tr1, none)
    else
      match E.beginErr db1 with
      | some e => (db1, tr1, some ("failed to begin transaction: " ++ e))
      | none =>
        let (tr2, r) := execSeedData E db1 s.InitialData
        match r with
        | .error e => (db1, tr1 ++ tr2, some e)
        | .ok p =>
          match E.commitErr p with
          | some e => (db1, tr1 ++ tr2, some ("failed to commit transaction: " ++ e))
          | none => (p, tr1 ++ tr2, none)

/-- Go function PrepDatabase: process each setup in order, stopping at (and returning)
the first error; on success of all setups return `nil` (`none`). -/
def prepDatabase {σ : Type} (E : SQLEngine σ) : σ → List InitialDBSetup →
    σ × List String × Option String
  | db, [] => (db, [], none)
  | db, s :: rest =>
    match prepSetup E db s with
    | (db1, tr1, some e) => (db1, tr1, some e)
    | (db1, tr1, none) =>
      let (db2, tr2, r) := prepDatabase E db1 rest
      (db2, tr1 ++ tr2, r)

/-! ## PrepMemcached

`PrepMemcached` iterates a Go map, whose iteration order is unspecified; the
model takes the iteration order as an explicit list of key/value pairs.  The
cache is abstracted as a state `σ` with a `Set` operation. -/

/-- Go function PrepMemcached: store each pair with an individual `Set`, in iteration
order; on the first failure return immediately with the wrapped error naming
the failing key (pairs already stored stay stored — the state returned is the
one reached so far); return `nil` only if every `Set` succeeded. -/
def prepMemcached {σ : Type} (setKV : σ → String → String → Except String σ) :
    σ → List (String × String) → σ × Option String
  | c, [] => (c, none)
  | c, (k, v) :: rest =>
    match setKV c k v with
    | .error e => (c, some ("failed to set key '" ++ k ++ "': " ++ e))
    | .ok c2 => prepMemcached setKV c2 rest

/-- Specification-side helper: fold `Set` over every pair, `none` as soon as
any `Set` fails. -/
def setAllOk {σ : Type} (setKV : σ → String → String → Except String σ) :
    σ → List (String × String) → Option σ
  | c, [] => some c
  | c, (k, v) :: rest =>
    match setKV c k v with
    | .error _ => none
    | .ok c2 => setAllOk setKV c2 rest

/-! ## Specification-side definitions and concrete example instances -/

/-- Modelled from the spec: the finalized specification equals the per-kind
default with each override's mutation applied in list order (a left fold). -/
def specFinalSpec (dflt : RunOptions) (opts : List RunOption) : RunOptions :=
  opts.foldl (fun r o => o r) dflt

/-- A concrete SQL engine over states that record the committed statements:
every statement succeeds and appends itself, except the literal `BOOM`,
which fails with a syntax error. -/
def execLog (p : List String) (stmt : String) : Except String (List String) :=
  if stmt = "BOOM" then .error "syntax error" else .ok (p ++ [stmt])

/-- The `execLog` engine with `Begin` and `Commit` always succeeding. -/
def logEngine : SQLEngine (List String) :=
  { exec := execLog, beginErr := fun _ => none, commitErr := fun _ => none }

/-- A concrete cache `Set` over states that record the stored pairs: every
key succeeds and appends its pair, except the literal key `bad`. -/
def kvSet (c : List (String × String)) (k v : String) :
    Except String (List (String × String)) :=
  if k = "bad" then .error "io error" else .ok (c ++ [(k, v)])

/-- A docker environment in which every external call succeeds and the first
readiness probe is already successful. -/
def readyDockerEnv : DockerEnv Unit :=
  { newPoolErr := none
    runErr := fun _ => none
    hostPort := fun _ => "localhost:32768"
    dial := fun _ => .ok ()
    elapsedAt := fun _ => 1
    pingErr := fun _ _ => none
    retryFuel := 0 }

/-- A docker environment whose ping never succeeds. -/
def failingPingDockerEnv : DockerEnv Unit :=
  { readyDockerEnv with pingErr := fun _ _ => some "connection refused", retryFuel := 2 }

/-- A docker environment in which no host port is mapped. -/
def noPortDockerEnv : DockerEnv Unit :=
  { readyDockerEnv with hostPort := fun _ => "" }

/-- A memcached environment in which every external call succeeds and the
first set+get probe is already successful. -/
def readyMemcachedEnv : MemcachedEnv Unit :=
  { newPoolErr := none
    runErr := fun _ => none
    hostPort := fun _ => "localhost:32770"
    newClient := fun _ => ()
    setErrAt := fun _ _ => none
    getErrAt := fun _ _ => none
    retryFuel := 0 }

/-- A memcached environment in which no host port is mapped. -/
def noPortMemcachedEnv : MemcachedEnv Unit :=
  { readyMemcachedEnv with hostPort := fun _ => "" }

/-- An override whose net effect renames the default database of the MySQL
specification to `custom_test`. -/
def customDBOverride : RunOption :=
  fun r => { r with Env := ["MYSQL_ROOT_PASSWORD=secret", "MYSQL_DATABASE=custom_test"] }

/-- An override whose net effect removes the `MYSQL_ROOT_PASSWORD` entry. -/
def removePasswordOverride : RunOption :=
  fun r => { r with Env := ["MYSQL_DATABASE=test"] }

/-! ## General lemmas about the override loop -/

theorem applyRunOptions_eq_foldl (r : RunOptions) (opts : List RunOption) :
    applyRunOptions r opts = opts.foldl (fun acc o => o acc) r := by
  induction opts generalizing r with
  | nil => rfl
  | cons o rest ih => simp only [applyRunOptions, List.foldl_cons, ih]

theorem applyRunOptions_append (r : RunOptions) (l1 l2 : List RunOption) :
    applyRunOptions r (l1 ++ l2) = applyRunOptions (applyRunOptions r l1) l2 := by
  induction l1 generalizing r with
  | nil => rfl
  | cons o rest ih =>
    simp only [List.cons_append, applyRunOptions]
    exact ih (o r)

/-! ## C5 -/

/-- C5: every constructor (MySQL, PostgreSQL, Memcached) first instantiates
its kind's hardcoded default specification and then applies each supplied
override exactly once, in list order, by direct mutation: the finalized
specification equals the default with each override's mutation folded on in
order — the empty list yields the default unchanged, and appending one more
override applies exactly that override to the previous result. -/
theorem C5_overrides_applied_in_order :
    (∀ opts : List RunOption, buildMySQLRunOpts opts = specFinalSpec defaultMySQLRunOpts opts)
    ∧ (∀ opts : List RunOption, buildPostgresRunOpts opts = specFinalSpec defaultPostgresRunOpts opts)
    ∧ (∀ opts : List RunOption, buildMemcachedRunOpts opts = specFinalSpec defaultMemcachedRunOpts opts)
    ∧ buildMySQLRunOpts [] = defaultMySQLRunOpts
    ∧ buildPostgresRunOpts [] = defaultPostgresRunOpts
    ∧ buildMemcachedRunOpts [] = defaultMemcachedRunOpts
    ∧ (∀ (opts : List RunOption) (o : RunOption),
        buildMySQLRunOpts (opts ++ [o]) = o (buildMySQLRunOpts opts))
    ∧ (∀ (opts : List RunOption) (o : RunOption),
        buildPostgresRunOpts (opts ++ [o]) = o (buildPostgresRunOpts opts))
    ∧ (∀ (opts : List RunOption) (o : RunOption),
        buildMemcachedRunOpts (opts ++ [o]) = o (buildMemcachedRunOpts opts)) := by
  refine ⟨fun opts => ?_, fun opts => ?_, fun opts => ?_, rfl, rfl, rfl,
    fun opts o => ?_, fun opts o => ?_, fun opts o => ?_⟩
  · exact applyRunOptions_eq_foldl defaultMySQLRunOpts opts
  · exact applyRunOptions_eq_foldl defaultPostgresRunOpts opts
  · exact applyRunOptions_eq_foldl defaultMemcachedRunOpts opts
  · exact applyRunOptions_append defaultMySQLRunOpts opts [o]
  · exact applyRunOptions_append defaultPostgresRunOpts opts [o]
  · exact applyRunOptions_append defaultMemcachedRunOpts opts [o]

/-! ## C9 -/

/-- C9: `getEnvValue` returns the substring after the `=` of the first entry
that starts with exactly the key followed by `=`: any head failing the match
condition — whatever it looks like — is skipped, so for every list made of
non-matching entries followed by a matching one, the value of that first
matching entry is returned; the empty string is returned on the empty list
and, more generally, when no entry matches; an entry whose variable name
properly extends the key (next character after the key is not `=`) never
satisfies the match condition; and consequently, when the overrides removed
the `MYSQL_ROOT_PASSWORD` entry, the generated MySQL connection string embeds
the empty string as the password segment. -/
theorem C9_getEnvValue_first_exact_match (key val : String) (c : Char) (r2 : String)
    (hc : c ≠ '=') :
    getEnvValue [] key = ""
    ∧ (∀ (v : String) (rest : List String),
        ¬ (strLen (key ++ "=") ≤ strLen v ∧ strTake v (strLen (key ++ "=")) = key ++ "=") →
        getEnvValue (v :: rest) key = getEnvValue rest key)
    ∧ (∀ pre tail : List String,
        (∀ v ∈ pre,
          ¬ (strLen (key ++ "=") ≤ strLen v ∧ strTake v (strLen (key ++ "=")) = key ++ "=")) →
        getEnvValue (pre ++ (key ++ "=" ++ val) :: tail) key = val)
    ∧ ¬ (strLen (key ++ "=") ≤ strLen (key ++ String.singleton c ++ r2)
        ∧ strTake (key ++ String.singleton c ++ r2) (strLen (key ++ "=")) = key ++ "=")
    ∧ (∀ envList : List String,
        (∀ v ∈ envList,
          ¬ (strLen (key ++ "=") ≤ strLen v ∧ strTake v (strLen (key ++ "=")) = key ++ "=")) →
        getEnvValue envList key = "")
    ∧ (∀ (opts : List RunOption) (port : String),
        getEnvValue (buildMySQLRunOpts opts).Env "MYSQL_ROOT_PASSWORD" = "" →
        mysqlDSN (buildMySQLRunOpts opts) port =
          "root:" ++ "" ++ "@tcp(" ++ port ++ ")/"
            ++ getEnvValue (buildMySQLRunOpts opts).Env "MYSQL_DATABASE" ++ "?parseTime=true") := by
  have hdata : (key ++ "=" ++ val).data = (key ++ "=").data ++ val.data :=
    String.data_append (key ++ "=") val
  refine ⟨rfl, ?_, ?_, ?_, ?_, ?_⟩
  · intro v rest h
    simp only [getEnvValue]
    rw [if_neg h]
  · intro pre tail
    induction pre with
    | nil =>
      intro _h
      simp only [List.nil_append, getEnvValue]
      rw [if_pos]
      · show String.mk ((key ++ "=" ++ val).data.drop (key ++ "=").data.length) = val
        rw [hdata, List.drop_left]
      · constructor
        · show (key ++ "=").data.length ≤ (key ++ "=" ++ val).data.length
          rw [hdata, List.length_append]
          omega
        · show String.mk ((key ++ "=" ++ val).data.take (key ++ "=").data.length) = key ++ "="
          rw [hdata, List.take_left]
    | cons v pre ih =>
      intro h
      simp only [List.cons_append, getEnvValue]
      rw [if_neg (h v (List.mem_cons_self v pre))]
      exact ih fun w hw => h w (List.mem_cons_of_mem v hw)
  · intro hAnd
    have htake := hAnd.2
    have hd : (key ++ String.singleton c ++ r2).data.take (key ++ "=").data.length =
        (key ++ "=").data :=
      congrArg String.data htake
    have h1 : (key ++ String.singleton c ++ r2).data = (key.data ++ [c]) ++ r2.data := by
      rw [String.data_append, String.data_append]
      rfl
    have h2 : (key ++ "=").data = key.data ++ ['='] := by
      rw [String.data_append]
    rw [h1, h2, List.length_append] at hd
    have h3 : ((key.data ++ [c]) ++ r2.data).take (key.data.length + ['='].length) =
        key.data ++ [c] := by
      apply List.take_left'
      simp
    rw [h3] at hd
    have h4 : [c] = ['='] := List.append_cancel_left hd
    exact hc (List.cons_eq_cons.mp h4).1
  · intro envList h
    induction envList with
    | nil => rfl
    | cons v tail ih =>
      simp only [getEnvValue]
      rw [if_neg (h v (List.mem_cons_self v tail))]
      exact ih fun w hw => h w (List.mem_cons_of_mem v hw)
  · intro opts port h
    unfold mysqlDSN
    rw [h]

/-- Witness for C9 at concrete inputs: the first matching entry's value is
returned past a non-matching head that does not start with the key (both on a
generic list and on the package's own default MySQL environment read), a
proper-prefix key never matches (the `MY_VAR` / `MY_VARIABLE` pair of the
unit test), and an override removing the password entry yields an empty
password segment in the DSN. -/
theorem C9_witness :
    getEnvValue (["FOO=1"] ++ ("KEY" ++ "=" ++ "v") :: []) "KEY" = "v"
    ∧ getEnvValue (["MYSQL_ROOT_PASSWORD=secret"] ++
        ("MYSQL_DATABASE" ++ "=" ++ "test") :: []) "MYSQL_DATABASE" = "test"
    ∧ ¬ (strLen ("MY_VAR" ++ "=") ≤ strLen ("MY_VAR" ++ String.singleton 'I' ++ "ABLE=456")
        ∧ strTake ("MY_VAR" ++ String.singleton 'I' ++ "ABLE=456") (strLen ("MY_VAR" ++ "="))
          = "MY_VAR" ++ "=")
    ∧ mysqlDSN (buildMySQLRunOpts [removePasswordOverride]) "localhost:32768" =
        "root:" ++ "" ++ "@tcp(" ++ "localhost:32768" ++ ")/"
          ++ getEnvValue (buildMySQLRunOpts [removePasswordOverride]).Env "MYSQL_DATABASE"
          ++ "?parseTime=true" :=
  ⟨(C9_getEnvValue_first_exact_match "KEY" "v" 'I' "ABLE=456" (by decide)).2.2.1
     ["FOO=1"] [] (by decide),
   (C9_getEnvValue_first_exact_match "MYSQL_DATABASE" "test" 'I' "ABLE=456"
       (by decide)).2.2.1 ["MYSQL_ROOT_PASSWORD=secret"] [] (by decide),
   (C9_getEnvValue_first_exact_match "MY_VAR" "123" 'I' "ABLE=456" (by decide)).2.2.2.1,
   (C9_getEnvValue_first_exact_match "MY_VAR" "123" 'I' "ABLE=456" (by decide)).2.2.2.2.2
     [removePasswordOverride] "localhost:32768" (by decide)⟩

/-! ## Lemmas about the readiness retry loop and the launch paths -/

theorem poolRetryTrace_ok {C : Type} (op : Nat → Except String C) (fuel : Nat) :
    ∀ (n : Nat) (c : C), (poolRetryTrace op fuel n).2 = .ok c → ∃ m, op m = .ok c := by
  induction fuel with
  | zero =>
    intro n c h
    exact ⟨n, h⟩
  | succ fuel ih =>
    intro n c h
    unfold poolRetryTrace at h
    cases hop : op n with
    | ok c0 =>
      rw [hop] at h
      exact ⟨n, hop.trans h⟩
    | error e =>
      rw [hop] at h
      rcases htr : poolRetryTrace op fuel (n + 1) with ⟨tr2, r2⟩
      rw [htr] at h
      exact ih (n + 1) c (by rw [htr]; exact h)

theorem poolRetryTrace_all_fail {C : Type} (op : Nat → Except String C) (ferr : Nat → String)
    (hop : ∀ m, op m = .error (ferr m)) (fuel : Nat) :
    ∀ n : Nat, poolRetryTrace op fuel n = (List.range' n (fuel + 1), .error (ferr (n + fuel))) := by
  induction fuel with
  | zero =>
    intro n
    unfold poolRetryTrace
    simp only [hop n, Nat.add_zero]
    rfl
  | succ fuel ih =>
    intro n
    unfold poolRetryTrace
    simp only [hop n, ih (n + 1), List.range'_succ]
    have hn : n + 1 + fuel = n + (fuel + 1) := by omega
    rw [hn]

theorem probe_addr_of_NewDockerDB {C : Type} {env : DockerEnv C} {ro : RunOptions}
    {cp dn : String} {f : String → String} {n : Nat} {s : String}
    (h : Event.probe n s ∈ (NewDockerDB env ro cp dn f).2) :
    s = f (env.hostPort cp) := by
  unfold NewDockerDB at h
  split at h
  · simp at h
  · split at h
    · simp at h
    · split at h
      · simp at h
      · split at h
        · simp only [List.mem_append, List.mem_map, List.mem_cons,
            List.mem_singleton, List.not_mem_nil, or_false] at h
          rcases h with ⟨m, _, hme⟩ | h | h
          · injection hme with h1 h2
            exact h2.symm
          · simp at h
          · simp at h
        · simp only [List.mem_map] at h
          rcases h with ⟨m, _, hme⟩
          injection hme with h1 h2
          exact h2.symm

theorem NewDockerDB_handle {C : Type} {env : DockerEnv C} {ro : RunOptions}
    {cp dn : String} {f : String → String} {c : C}
    (h : (NewDockerDB env ro cp dn f).1 = some c) :
    ∃ n, dockerProbe env (f (env.hostPort cp)) n = .ok c := by
  unfold NewDockerDB at h
  split at h
  · simp at h
  · split at h
    · simp at h
    · split at h
      · simp at h
      · split at h
        · simp at h
        · rename_i tr c0 heq
          have hc0 : c0 = c := by
            simpa using h
          subst hc0
          exact poolRetryTrace_ok _ env.retryFuel 0 c0 (by rw [heq])

theorem NewMemcachedWithOptions_handle {M : Type} {env : MemcachedEnv M}
    {opts : List RunOption} {m : M}
    (h : (NewMemcachedWithOptions env opts).1 = some m) :
    ∃ n, memcachedProbe env (env.hostPort "11211/tcp") n = .ok m := by
  unfold NewMemcachedWithOptions at h
  split at h
  · simp at h
  · split at h
    · simp at h
    · split at h
      · simp at h
      · split at h
        · simp at h
        · rename_i tr c0 heq
          have hc0 : c0 = m := by
            simpa using h
          subst hc0
          exact poolRetryTrace_ok _ env.retryFuel 0 c0 (by rw [heq])

/-! ## C2 -/

/-- C2: on every constructor path, a connected handle is returned to the
caller only if the readiness retry loop observed at least one successful
probe against the externally-mapped endpoint — a successful dial+ping at the
generated DSN for the database paths, a successful set-then-get of the
throwaway key for Memcached; when no probe ever succeeds the constructor
aborts instead of returning a handle, so a returned handle implies a
successful probe. -/
theorem C2_handle_only_after_successful_probe {C M : Type} (envD : DockerEnv C)
    (envM : MemcachedEnv M) (ro : RunOptions) (cp dn : String) (f : String → String)
    (opts : List RunOption) (c : C) (m : M)
    (hD : (NewDockerDB envD ro cp dn f).1 = some c)
    (hM : (NewMemcachedWithOptions envM opts).1 = some m) :
    (∃ n, dockerProbe envD (f (envD.hostPort cp)) n = .ok c)
    ∧ ∃ n, memcachedProbe envM (envM.hostPort "11211/tcp") n = .ok m :=
  ⟨NewDockerDB_handle hD, NewMemcachedWithOptions_handle hM⟩

/-- Witness for C2: in environments whose first probe succeeds, both
constructors return the probed handle, and the theorem yields the successful
probe. -/
theorem C2_witness :
    (∃ n, dockerProbe readyDockerEnv
        (mysqlDSN defaultMySQLRunOpts (readyDockerEnv.hostPort "3306/tcp")) n = .ok ())
    ∧ ∃ n, memcachedProbe readyMemcachedEnv (readyMemcachedEnv.hostPort "11211/tcp") n = .ok () :=
  C2_handle_only_after_successful_probe readyDockerEnv readyMemcachedEnv
    defaultMySQLRunOpts "3306/tcp" "mysql" (fun ap => mysqlDSN defaultMySQLRunOpts ap)
    [] () () (by decide) (by decide)

/-! ## C3 -/

/-- C3: on the relational-database constructor paths the readiness attempt is
governed by the fixed 30-second ping deadline (`readinessTimeoutSeconds`,
past which no probe can succeed), and whenever every probe fails the retry
loop terminates after its externally-bounded attempts, purges the launched
container and reports a fatal readiness error — the whole run equals the
finite probe trace followed by the purge and the fatal abort, rather than
hanging or leaking the container. -/
theorem C3_readiness_timeout_purges {C : Type} (env : DockerEnv C) (ro : RunOptions)
    (cp dn : String) (f : String → String) (ferr : Nat → String)
    (hnp : env.newPoolErr = none) (hre : env.runErr ro = none)
    (hp : ¬ env.hostPort cp = "")
    (hfail : ∀ n, dockerProbe env (f (env.hostPort cp)) n = .error (ferr n)) :
    NewDockerDB env ro cp dn f =
      (none,
        (List.range (env.retryFuel + 1)).map (fun n => Event.probe n (f (env.hostPort cp)))
          ++ [Event.purge,
              Event.fatal ("failed to connect to " ++ dn ++ ": " ++ ferr env.retryFuel)])
    ∧ readinessTimeoutSeconds = 30
    ∧ (∀ (n : Nat) (c : C), readinessTimeoutSeconds ≤ env.elapsedAt n →
        dockerProbe env (f (env.hostPort cp)) n ≠ .ok c) := by
  refine ⟨?_, rfl, ?_⟩
  · unfold NewDockerDB
    rw [hnp, hre, if_neg hp,
      poolRetryTrace_all_fail _ ferr hfail env.retryFuel 0, List.range_eq_range']
    simp only [Nat.zero_add]
  · intro n c hn
    unfold dockerProbe
    cases hd : env.dial (f (env.hostPort cp)) with
    | error e => simp
    | ok c0 => simp [hn]

/-- Witness for C3: with a ping that always fails, the whole run is the three
probe attempts granted by the external backoff, then the purge, then the
fatal abort. -/
theorem C3_witness :
    NewDockerDB failingPingDockerEnv defaultMySQLRunOpts "3306/tcp" "mysql"
        (fun ap => mysqlDSN defaultMySQLRunOpts ap) =
      (none,
        (List.range (failingPingDockerEnv.retryFuel + 1)).map
            (fun n => Event.probe n
              (mysqlDSN defaultMySQLRunOpts (failingPingDockerEnv.hostPort "3306/tcp")))
          ++ [Event.purge,
              Event.fatal ("failed to connect to " ++ "mysql" ++ ": " ++ "connection refused")])
    ∧ readinessTimeoutSeconds = 30 :=
  ⟨(C3_readiness_timeout_purges failingPingDockerEnv defaultMySQLRunOpts "3306/tcp" "mysql"
      (fun ap => mysqlDSN defaultMySQLRunOpts ap) (fun _ => "connection refused")
      rfl rfl (by decide) (fun n => rfl)).1,
   rfl⟩

/-! ## C7 -/

/-- C7: on every constructor path, when the launch succeeded but no host port
was mapped for the declared internal port (the lookup yields the empty
string), the just-created container is purged and then the operation aborts
fatally, with no handle returned and no dial or probe attempt ever made. -/
theorem C7_no_mapped_port_purges {C M : Type} (envD : DockerEnv C) (envM : MemcachedEnv M)
    (ro : RunOptions) (cp dn : String) (f : String → String) (opts : List RunOption)
    (hnp : envD.newPoolErr = none) (hre : envD.runErr ro = none)
    (hp : envD.hostPort cp = "")
    (hnpM : envM.newPoolErr = none)
    (hreM : envM.runErr (buildMemcachedRunOpts opts) = none)
    (hpM : envM.hostPort "11211/tcp" = "") :
    NewDockerDB envD ro cp dn f =
      (none, [Event.purge,
        Event.fatal ("no host port was assigned for the " ++ dn ++ " container")])
    ∧ NewMemcachedWithOptions envM opts =
      (none, [Event.purge, Event.fatal "no host port was assigned for the memcached container"])
    ∧ (∀ (n : Nat) (s : String), Event.probe n s ∉ (NewDockerDB envD ro cp dn f).2)
    ∧ (∀ (n : Nat) (s : String), Event.probe n s ∉ (NewMemcachedWithOptions envM opts).2) := by
  have h1 : NewDockerDB envD ro cp dn f =
      (none, [Event.purge,
        Event.fatal ("no host port was assigned for the " ++ dn ++ " container")]) := by
    unfold NewDockerDB
    rw [hnp, hre, if_pos hp]
  have h2 : NewMemcachedWithOptions envM opts =
      (none, [Event.purge,
        Event.fatal "no host port was assigned for the memcached container"]) := by
    unfold NewMemcachedWithOptions
    rw [hnpM, hreM, if_pos hpM]
  refine ⟨h1, h2, ?_, ?_⟩
  · intro n s
    rw [h1]
    simp
  · intro n s
    rw [h2]
    simp

/-- Witness for C7: both constructors, in environments mapping no host port,
purge and abort without returning a handle. -/
theorem C7_witness :
    NewDockerDB noPortDockerEnv defaultMySQLRunOpts "3306/tcp" "mysql"
        (fun ap => mysqlDSN defaultMySQLRunOpts ap) =
      (none, [Event.purge,
        Event.fatal ("no host port was assigned for the " ++ "mysql" ++ " container")])
    ∧ NewMemcachedWithOptions noPortMemcachedEnv [] =
      (none, [Event.purge,
        Event.fatal "no host port was assigned for the memcached container"]) :=
  ⟨(C7_no_mapped_port_purges noPortDockerEnv noPortMemcachedEnv defaultMySQLRunOpts
      "3306/tcp" "mysql" (fun ap => mysqlDSN defaultMySQLRunOpts ap) []
      rfl rfl rfl rfl rfl rfl).1,
   (C7_no_mapped_port_purges noPortDockerEnv noPortMemcachedEnv defaultMySQLRunOpts
      "3306/tcp" "mysql" (fun ap => mysqlDSN defaultMySQLRunOpts ap) []
      rfl rfl rfl rfl rfl rfl).2.1⟩

/-! ## C6 -/

/-- C6: every readiness probe of the MySQL path dials a connection string of
exactly the form `root:<password>@tcp(<host:port>)/<database>?parseTime=true`,
and every probe of the PostgreSQL path dials exactly
`postgres://postgres:<password>@<host:port>/<database>?sslmode=disable`,
where the password and database are the values of the corresponding
environment entries of the finalized specification and `<host:port>` is the
externally-mapped endpoint. -/
theorem C6_dsn_formats {C : Type} (env : DockerEnv C) (opts : List RunOption)
    (n : Nat) (s : String) :
    (Event.probe n s ∈ (NewMySQLWithOptions env opts).2 →
      s = "root:" ++ getEnvValue (buildMySQLRunOpts opts).Env "MYSQL_ROOT_PASSWORD"
        ++ "@tcp(" ++ env.hostPort "3306/tcp" ++ ")/"
        ++ getEnvValue (buildMySQLRunOpts opts).Env "MYSQL_DATABASE" ++ "?parseTime=true")
    ∧ (Event.probe n s ∈ (NewPostgresWithOptions env opts).2 →
      s = "postgres://postgres:"
        ++ getEnvValue (buildPostgresRunOpts opts).Env "POSTGRES_PASSWORD"
        ++ "@" ++ env.hostPort "5432/tcp" ++ "/"
        ++ getEnvValue (buildPostgresRunOpts opts).Env "POSTGRES_DB" ++ "?sslmode=disable") := by
  constructor
  · intro h
    have h' : Event.probe n s ∈ (NewDockerDB env (buildMySQLRunOpts opts) "3306/tcp" "mysql"
        (fun ap => mysqlDSN (buildMySQLRunOpts opts) ap)).2 := h
    exact probe_addr_of_NewDockerDB h'
  · intro h
    have h' : Event.probe n s ∈ (NewDockerDB env (buildPostgresRunOpts opts) "5432/tcp" "postgres"
        (fun ap => postgresDSN (buildPostgresRunOpts opts) ap)).2 := h
    exact probe_addr_of_NewDockerDB h'

/-- Witness for C6: the default MySQL path in the ready environment dials the
literal `root:secret@tcp(localhost:32768)/test?parseTime=true`. -/
theorem C6_witness :
    "root:secret@tcp(localhost:32768)/test?parseTime=true" =
      "root:" ++ getEnvValue (buildMySQLRunOpts []).Env "MYSQL_ROOT_PASSWORD"
        ++ "@tcp(" ++ readyDockerEnv.hostPort "3306/tcp" ++ ")/"
        ++ getEnvValue (buildMySQLRunOpts []).Env "MYSQL_DATABASE" ++ "?parseTime=true" :=
  (C6_dsn_formats readyDockerEnv [] 0
      "root:secret@tcp(localhost:32768)/test?parseTime=true").1 (by decide)

/-! ## C4 -/

/-- C4: when the applied overrides leave `MYSQL_DATABASE` at `custom_test`,
the generated MySQL connection string embeds `custom_test` as its database
segment (with the password segment still read from the overridden
environment), and every readiness probe of the constructor dials exactly that
string. -/
theorem C4_custom_database_in_dsn {C : Type} (env : DockerEnv C)
    (opts : List RunOption) (port : String)
    (h : getEnvValue (buildMySQLRunOpts opts).Env "MYSQL_DATABASE" = "custom_test") :
    mysqlDSN (buildMySQLRunOpts opts) port =
      "root:" ++ getEnvValue (buildMySQLRunOpts opts).Env "MYSQL_ROOT_PASSWORD"
        ++ "@tcp(" ++ port ++ ")/" ++ "custom_test" ++ "?parseTime=true"
    ∧ (∀ (n : Nat) (s : String), Event.probe n s ∈ (NewMySQLWithOptions env opts).2 →
        s = "root:" ++ getEnvValue (buildMySQLRunOpts opts).Env "MYSQL_ROOT_PASSWORD"
          ++ "@tcp(" ++ env.hostPort "3306/tcp" ++ ")/" ++ "custom_test" ++ "?parseTime=true") := by
  constructor
  · unfold mysqlDSN
    rw [h]
  · intro n s hmem
    have h' : Event.probe n s ∈ (NewDockerDB env (buildMySQLRunOpts opts) "3306/tcp" "mysql"
        (fun ap => mysqlDSN (buildMySQLRunOpts opts) ap)).2 := hmem
    rw [probe_addr_of_NewDockerDB h']
    unfold mysqlDSN
    rw [h]

/-- Witness for C4: with an override renaming the database to `custom_test`,
the generated DSN embeds `custom_test`. -/
theorem C4_witness :
    mysqlDSN (buildMySQLRunOpts [customDBOverride]) "localhost:32768" =
      "root:" ++ getEnvValue (buildMySQLRunOpts [customDBOverride]).Env "MYSQL_ROOT_PASSWORD"
        ++ "@tcp(" ++ "localhost:32768" ++ ")/" ++ "custom_test" ++ "?parseTime=true" :=
  (C4_custom_database_in_dsn readyDockerEnv [customDBOverride] "localhost:32768"
      (by decide)).1

/-! ## Lemmas about the seeder -/

theorem execSeedData_error_wrapped {σ : Type} (E : SQLEngine σ) (l : List String) :
    ∀ (p : σ) (tr : List String) (msg : String),
      execSeedData E p l = (tr, .error msg) →
      ∃ e, msg = "failed to execute initial data SQL: " ++ e := by
  induction l with
  | nil =>
    intro p tr msg h
    simp [execSeedData] at h
  | cons stmt rest ih =>
    intro p tr msg h
    unfold execSeedData at h
    cases hex : E.exec p stmt with
    | error e =>
      rw [hex] at h
      have : ("failed to execute initial data SQL: " ++ e : String) = msg :=
        congrArg (fun q => q.2) h |> Except.error.inj
      exact ⟨e, this.symm⟩
    | ok p2 =>
      rcases hrec : execSeedData E p2 rest with ⟨tr2, r2⟩
      simp only [hex, hrec] at h
      have hr2 : r2 = .error msg := congrArg (fun q => q.2) h
      exact ih p2 tr2 msg (by rw [hrec, hr2])

theorem execSeedData_trace_mem {σ : Type} (E : SQLEngine σ) (l : List String) :
    ∀ (p : σ) (tr : List String) (r : Except String σ),
      execSeedData E p l = (tr, r) → ∀ x ∈ tr, x ∈ l := by
  induction l with
  | nil =>
    intro p tr r h x hx
    simp [execSeedData] at h
    rw [h.1] at hx
    simp at hx
  | cons stmt rest ih =>
    intro p tr r h x hx
    unfold execSeedData at h
    cases hex : E.exec p stmt with
    | error e =>
      rw [hex] at h
      have htr : ([stmt] : List String) = tr := congrArg (fun q => q.1) h
      rw [← htr] at hx
      simp at hx
      simp [hx]
    | ok p2 =>
      rcases hrec : execSeedData E p2 rest with ⟨tr2, r2⟩
      simp only [hex, hrec] at h
      have htr : stmt :: tr2 = tr := congrArg (fun q => q.1) h
      rw [← htr] at hx
      rcases List.mem_cons.mp hx with hx | hx
      · simp [hx]
      · exact List.mem_cons_of_mem stmt (ih p2 tr2 r2 (by rw [hrec]) x hx)

theorem execSeedData_nil_ne_error {σ : Type} (E : SQLEngine σ) (p : σ)
    (tr : List String) (msg : String)
    (h : execSeedData E p [] = (tr, .error msg)) : False := by
  simp [execSeedData] at h

theorem schemaStep_trace {σ : Type} (E : SQLEngine σ) (db db1 : σ) (sq : String)
    (tr1 : List String) (h : schemaStep E db sq = (db1, tr1, none)) :
    ∀ x ∈ tr1, x = sq := by
  unfold schemaStep at h
  by_cases hsq : sq = ""
  · rw [if_pos hsq] at h
    have htr : ([] : List String) = tr1 := congrArg (fun q => q.2.1) h
    intro x hx
    rw [← htr] at hx
    simp at hx
  · rw [if_neg hsq] at h
    cases hex : E.exec db sq with
    | error e =>
      rw [hex] at h
      have : (some ("failed to execute schema SQL: " ++ e) : Option String) = none :=
        congrArg (fun q => q.2.2) h
      simp at this
    | ok d =>
      rw [hex] at h
      have htr : ([sq] : List String) = tr1 := congrArg (fun q => q.2.1) h
      intro x hx
      rw [← htr] at hx
      simpa using hx

theorem prepSetup_seed_error {σ : Type} (E : SQLEngine σ) (db db1 : σ)
    (s : InitialDBSetup) (tr1 tr2 : List String) (msg : String)
    (hs : schemaStep E db s.SchemaSQL = (db1, tr1, none))
    (hb : E.beginErr db1 = none)
    (hf : execSeedData E db1 s.InitialData = (tr2, .error msg)) :
    prepSetup E db s = (db1, tr1 ++ tr2, some msg) := by
  have hne : ¬ s.InitialData = [] := by
    intro h0
    rw [h0] at hf
    exact execSeedData_nil_ne_error E db1 tr2 msg hf
  unfold prepSetup
  simp only [hs]
  rw [if_neg hne]
  simp only [hb, hf]

theorem prepDatabase_cons_seed_error {σ : Type} (E : SQLEngine σ) (db db1 : σ)
    (s : InitialDBSetup) (rest : List InitialDBSetup) (tr1 tr2 : List String) (msg : String)
    (hs : schemaStep E db s.SchemaSQL = (db1, tr1, none))
    (hb : E.beginErr db1 = none)
    (hf : execSeedData E db1 s.InitialData = (tr2, .error msg)) :
    prepDatabase E db (s :: rest) = (db1, tr1 ++ tr2, some msg) := by
  unfold prepDatabase
  rw [prepSetup_seed_error E db db1 s tr1 tr2 msg hs hb hf]

theorem prepDatabase_append_of_ok {σ : Type} (E : SQLEngine σ) (pre : List InitialDBSetup) :
    ∀ (db db2 : σ) (tr : List String) (l2 : List InitialDBSetup),
      prepDatabase E db pre = (db2, tr, none) →
      prepDatabase E db (pre ++ l2) =
        ((prepDatabase E db2 l2).1, tr ++ (prepDatabase E db2 l2).2.1,
          (prepDatabase E db2 l2).2.2) := by
  induction pre with
  | nil =>
    intro db db2 tr l2 h
    have hdb : db = db2 := congrArg (fun q => q.1) h
    have htr : ([] : List String) = tr := congrArg (fun q => q.2.1) h
    rw [List.nil_append, hdb, ← htr, List.nil_append]
  | cons s rest ih =>
    intro db db2 tr l2 h
    rcases hps : prepSetup E db s with ⟨db1, tr1, err⟩
    cases err with
    | some e =>
      simp only [prepDatabase, hps] at h
      have : (some e : Option String) = none := congrArg (fun q => q.2.2) h
      simp at this
    | none =>
      rcases hrec : prepDatabase E db1 rest with ⟨dbr, trr, rr⟩
      simp only [prepDatabase, hps, hrec] at h
      have hdb : dbr = db2 := congrArg (fun q => q.1) h
      have htr : tr1 ++ trr = tr := congrArg (fun q => q.2.1) h
      have hrr : rr = none := congrArg (fun q => q.2.2) h
      rw [List.cons_append]
      simp only [prepDatabase, hps,
        ih db1 db2 trr l2 (by rw [hrec, hdb, hrr])]
      rw [← htr, List.append_assoc]

/-! ## C1 -/

/-- C1: in `PrepDatabase`, when a seed statement of some unit fails inside
the per-unit transaction (after any number of earlier units completed
successfully), the transaction is rolled back and the wrapped initial-data
error is returned immediately: the final committed state is exactly the
pre-transaction state of the failing unit (no seed statement of that unit is
visible — all-or-nothing), and the statements executed beyond the earlier
units are only the failing unit's own schema text and seed statements, so no
statement of any later unit, nor a later unit's schema text, is ever
executed. -/
theorem C1_seed_failure_rolls_back {σ : Type} (E : SQLEngine σ) (db0 db db1 : σ)
    (preUnits : List InitialDBSetup) (trPre : List String)
    (s : InitialDBSetup) (rest : List InitialDBSetup) (tr1 tr2 : List String) (msg : String)
    (hpre : prepDatabase E db0 preUnits = (db, trPre, none))
    (hs : schemaStep E db s.SchemaSQL = (db1, tr1, none))
    (hb : E.beginErr db1 = none)
    (hf : execSeedData E db1 s.InitialData = (tr2, .error msg)) :
    prepDatabase E db0 (preUnits ++ s :: rest) = (db1, trPre ++ (tr1 ++ tr2), some msg)
    ∧ (∃ e, msg = "failed to execute initial data SQL: " ++ e)
    ∧ ∀ x ∈ tr1 ++ tr2, x = s.SchemaSQL ∨ x ∈ s.InitialData := by
  refine ⟨?_, execSeedData_error_wrapped E s.InitialData db1 tr2 msg hf, ?_⟩
  · rw [prepDatabase_append_of_ok E preUnits db0 db trPre (s :: rest) hpre,
      prepDatabase_cons_seed_error E db db1 s rest tr1 tr2 msg hs hb hf]
  · intro x hx
    rcases List.mem_append.mp hx with hx | hx
    · exact Or.inl (schemaStep_trace E db db1 s.SchemaSQL tr1 hs x hx)
    · exact Or.inr (execSeedData_trace_mem E s.InitialData db1 tr2 _ hf x hx)

/-- Witness for C1: against the concrete logging engine, with one earlier
unit fully committed, a unit whose second seed statement fails leaves only
the earlier unit and its own schema statement committed, returns the wrapped
initial-data error, and never reaches the following unit. -/
theorem C1_witness :
    prepDatabase logEngine []
      ([{ SchemaSQL := "CREATE TABLE p (id INT)", InitialData := [] }] ++
       [{ SchemaSQL := "CREATE TABLE t (id INT)", InitialData := ["INSERT 1", "BOOM"] },
        { SchemaSQL := "CREATE TABLE u (id INT)", InitialData := ["INSERT 9"] }]) =
      (["CREATE TABLE p (id INT)", "CREATE TABLE t (id INT)"],
        ["CREATE TABLE p (id INT)"] ++ (["CREATE TABLE t (id INT)"] ++ ["INSERT 1", "BOOM"]),
        some "failed to execute initial data SQL: syntax error") :=
  (C1_seed_failure_rolls_back logEngine []
      ["CREATE TABLE p (id INT)"]
      ["CREATE TABLE p (id INT)", "CREATE TABLE t (id INT)"]
      [{ SchemaSQL := "CREATE TABLE p (id INT)", InitialData := [] }]
      ["CREATE TABLE p (id INT)"]
      { SchemaSQL := "CREATE TABLE t (id INT)", InitialData := ["INSERT 1", "BOOM"] }
      [{ SchemaSQL := "CREATE TABLE u (id INT)", InitialData := ["INSERT 9"] }]
      ["CREATE TABLE t (id INT)"] ["INSERT 1", "BOOM"]
      "failed to execute initial data SQL: syntax error"
      rfl rfl rfl rfl).1

/-! ## Lemmas about PrepMemcached -/

theorem prepMemcached_append_of_ok {σ : Type}
    (setKV : σ → String → String → Except String σ) (pre : List (String × String)) :
    ∀ (c c1 : σ) (l2 : List (String × String)),
      prepMemcached setKV c pre = (c1, none) →
      prepMemcached setKV c (pre ++ l2) = prepMemcached setKV c1 l2 := by
  induction pre with
  | nil =>
    intro c c1 l2 h
    have hc : c = c1 := congrArg (fun q => q.1) h
    rw [List.nil_append, hc]
  | cons kv rest ih =>
    intro c c1 l2 h
    obtain ⟨k, v⟩ := kv
    cases hset : setKV c k v with
    | error e =>
      simp only [prepMemcached, hset] at h
      have : (some ("failed to set key '" ++ k ++ "': " ++ e) : Option String) = none :=
        congrArg (fun q => q.2) h
      simp at this
    | ok c2 =>
      simp only [prepMemcached, hset] at h
      rw [List.cons_append]
      simp only [prepMemcached, hset]
      exact ih c2 c1 l2 h

theorem prepMemcached_ok_iff {σ : Type}
    (setKV : σ → String → String → Except String σ) (l : List (String × String)) :
    ∀ (c cf : σ), prepMemcached setKV c l = (cf, none) ↔ setAllOk setKV c l = some cf := by
  induction l with
  | nil =>
    intro c cf
    simp [prepMemcached, setAllOk]
  | cons kv rest ih =>
    intro c cf
    obtain ⟨k, v⟩ := kv
    cases hset : setKV c k v with
    | error e => simp [prepMemcached, setAllOk, hset]
    | ok c2 => simp only [prepMemcached, setAllOk, hset]; exact ih c2 cf

/-! ## C10 -/

/-- C10: `PrepMemcached` is not all-or-nothing: it stores each pair of the
map (taken in an arbitrary iteration order) with an individual `Set`; at the
first failing `Set` it returns immediately with a wrapped error naming the
failing key, while the cache keeps exactly the pairs already stored (no pair
is rolled back and no later pair is attempted); and it returns `nil` exactly
when every pair was stored successfully. -/
theorem C10_prepMemcached_first_failure {σ : Type}
    (setKV : σ → String → String → Except String σ) (c c1 : σ)
    (pre rest : List (String × String)) (k v e : String)
    (h1 : prepMemcached setKV c pre = (c1, none))
    (h2 : setKV c1 k v = .error e) :
    prepMemcached setKV c (pre ++ (k, v) :: rest) =
      (c1, some ("failed to set key '" ++ k ++ "': " ++ e))
    ∧ ∀ (c0 cf : σ) (l : List (String × String)),
        prepMemcached setKV c0 l = (cf, none) ↔ setAllOk setKV c0 l = some cf := by
  constructor
  · rw [prepMemcached_append_of_ok setKV pre c c1 ((k, v) :: rest) h1]
    unfold prepMemcached
    rw [h2]
  · intro c0 cf l
    exact prepMemcached_ok_iff setKV l c0 cf

/-- Witness for C10: with a set operation failing on the key `bad`, the pair
stored before the failure stays stored, the wrapped error names `bad`, and
the pair after it is never attempted. -/
theorem C10_witness :
    prepMemcached kvSet [] ([("a", "1")] ++ ("bad", "2") :: [("z", "9")]) =
      ([("a", "1")], some ("failed to set key '" ++ "bad" ++ "': " ++ "io error")) :=
  (C10_prepMemcached_first_failure kvSet [] [("a", "1")] [("a", "1")] [("z", "9")]
      "bad" "2" "io error" rfl rfl).1

/-! ## C8 -/

/-- C8 counterexample: the release function of the Memcached constructor path
performs no client-close step at all — its trace is only the container
purge — so the claim that every constructor path performs a client-close step
followed by the container purge fails on the Memcached path. -/
theorem C8_counterexample :
    memcachedCleanup none = [CleanupEvent.purgeContainer]
    ∧ CleanupEvent.closeClient ∉ memcachedCleanup none := by
  refine ⟨rfl, ?_⟩
  decide

/-- C8 (amended): the database constructor paths' release function performs
the client-close step and then the container-purge step, proceeding to the
purge even when the close fails, with either error logged; the Memcached
path's release function performs only the container purge, logging its error;
on every path cleanup errors are logged rather than escalated (the release
functions return nothing but their event traces). -/
theorem C8_cleanup_close_then_purge (closeErr purgeErr : Option String) (dn : String) :
    CleanupEvent.closeClient ∈ dbCleanup closeErr purgeErr dn
    ∧ CleanupEvent.purgeContainer ∈ dbCleanup closeErr purgeErr dn
    ∧ (∃ i j : Nat, i < j
        ∧ (dbCleanup closeErr purgeErr dn)[i]? = some CleanupEvent.closeClient
        ∧ (dbCleanup closeErr purgeErr dn)[j]? = some CleanupEvent.purgeContainer)
    ∧ (∀ e, closeErr = some e →
        CleanupEvent.logged ("failed to close DB: " ++ e) ∈ dbCleanup closeErr purgeErr dn)
    ∧ (∀ e, purgeErr = some e →
        CleanupEvent.logged ("failed to remove " ++ dn ++ " container: " ++ e)
          ∈ dbCleanup closeErr purgeErr dn)
    ∧ CleanupEvent.purgeContainer ∈ memcachedCleanup purgeErr
    ∧ (∀ e, purgeErr = some e →
        CleanupEvent.logged ("failed to remove memcached container: " ++ e)
          ∈ memcachedCleanup purgeErr) := by
  cases closeErr with
  | none =>
    cases purgeErr with
    | none =>
      refine ⟨by simp [dbCleanup], by simp [dbCleanup], ⟨0, 1, by omega, rfl, rfl⟩,
        ?_, ?_, by simp [memcachedCleanup], ?_⟩
      all_goals (intro e he; simp at he)
    | some pe =>
      refine ⟨by simp [dbCleanup], by simp [dbCleanup], ⟨0, 1, by omega, rfl, rfl⟩,
        ?_, ?_, by simp [memcachedCleanup], ?_⟩
      · intro e he
        simp at he
      · intro e he
        rw [Option.some.inj he]
        simp [dbCleanup]
      · intro e he
        rw [Option.some.inj he]
        simp [memcachedCleanup]
  | some ce =>
    cases purgeErr with
    | none =>
      refine ⟨by simp [dbCleanup], by simp [dbCleanup], ⟨0, 2, by omega, rfl, rfl⟩,
        ?_, ?_, by simp [memcachedCleanup], ?_⟩
      · intro e he
        rw [Option.some.inj he]
        simp [dbCleanup]
      all_goals (intro e he; simp at he)
    | some pe =>
      refine ⟨by simp [dbCleanup], by simp [dbCleanup], ⟨0, 2, by omega, rfl, rfl⟩,
        ?_, ?_, by simp [memcachedCleanup], ?_⟩
      · intro e he
        rw [Option.some.inj he]
        simp [dbCleanup]
      · intro e he
        rw [Option.some.inj he]
        simp [dbCleanup]
      · intro e he
        rw [Option.some.inj he]
        simp [memcachedCleanup]

/-- Witness for C8 (amended): with both teardown steps failing, the database
release still reaches the purge and logs the close failure, and the Memcached
release reaches the purge. -/
theorem C8_witness :
    CleanupEvent.purgeContainer ∈ dbCleanup (some "close failed") (some "purge failed") "mysql"
    ∧ CleanupEvent.logged ("failed to close DB: " ++ "close failed")
        ∈ dbCleanup (some "close failed") (some "purge failed") "mysql"
    ∧ CleanupEvent.purgeContainer ∈ memcachedCleanup (some "purge failed") :=
  ⟨(C8_cleanup_close_then_purge (some "close failed") (some "purge failed") "mysql").2.1,
   (C8_cleanup_close_then_purge (some "close failed") (some "purge failed") "mysql").2.2.2.1
     "close failed" rfl,
   (C8_cleanup_close_then_purge (some "close failed") (some "purge failed") "mysql").2.2.2.2.2.1⟩

end Sqltest
